import Mathlib

/-!
Verification development for the natural-language-to-SQL analytics pipeline:
the schema catalog cache (`SchemaService`), the semantic memory store
(`MemoryService`), and the query-generation / result-analysis state machine
(`AIService.generate_query`, `AIService.analyze_results`).

The embedding models the Python sources shallowly:
- strings are Lean `String`s, with Python `str.strip` / slicing modelled over
  the underlying character list;
- the query engine client (`TrinoService`, whose class body is not part of
  the sources, only its callers) is modelled from the spec as a function
  from SQL text to a reply that is either rows or an error-as-data;
- the generative model client is a stub indexed by call number, matching the
  test stubs the spec's testable properties quantify over (prompt text does
  not influence any branch of the embedded code, so prompts are not
  materialised);
- exceptions are modelled by an explicit `raised` result constructor.
-/

namespace AIAnalytics

/-- Characters removed by Python `str.strip()` with no arguments. -/
def isPyWhitespace (c : Char) : Bool :=
  c = ' ' || c = '\t' || c = '\n' || c = '\r' || c = '\x0b' || c = '\x0c'

/-- Python `str.strip()` on a character list: drop whitespace at both ends. -/
def stripChars (l : List Char) : List Char :=
  ((l.dropWhile isPyWhitespace).reverse.dropWhile isPyWhitespace).reverse

/-- Python `str.strip()`. -/
def pyStrip (s : String) : String :=
  ⟨stripChars s.data⟩

/-- Python `s.startswith(p)`. -/
def pyStartsWith (s p : String) : Bool :=
  decide (s.data.take p.data.length = p.data)

/-- Python `s.endswith(p)`. -/
def pyEndsWith (s p : String) : Bool :=
  decide (s.data.drop (s.data.length - p.data.length) = p.data
    ∧ p.data.length ≤ s.data.length)

/-- Python `s[n:]`. -/
def pyDrop (s : String) (n : Nat) : String :=
  ⟨s.data.drop n⟩

/-- Python `s[:-n]` (for `n ≤ len s`). -/
def pyDropRight (s : String) (n : Nat) : String :=
  ⟨s.data.take (s.data.length - n)⟩

/-- Python `':' in s` for the single forbidden character. -/
def hasColon (s : String) : Bool :=
  decide (':' ∈ s.data)

/-- The opening code-fence marker stripped by `generate_query`. -/
def fenceOpen : String := "```sql"

/-- The closing code-fence marker stripped by `generate_query`. -/
def fenceClose : String := "```"

/-- The clean-up block of `AIService.generate_query` (ai_service.py lines
393-399): strip, drop a leading ```` ```sql ```` marker, drop a trailing
```` ``` ```` marker, strip again. -/
def cleanQuery (s : String) : String :=
  let q := pyStrip s
  let q := if pyStartsWith q fenceOpen then pyDrop q 6 else q
  let q := if pyEndsWith q fenceClose then pyDropRight q 3 else q
  pyStrip q

/-- Membership survives `dropWhile` for an element the predicate rejects. -/
theorem mem_dropWhile_of_not {p : Char → Bool} {c : Char} {l : List Char}
    (hc : c ∈ l) (hp : p c = false) : c ∈ l.dropWhile p := by
  induction l with
  | nil => cases hc
  | cons a t ih =>
    rw [List.dropWhile_cons]
    by_cases hpa : p a = true
    · rw [if_pos hpa]
      rcases List.mem_cons.mp hc with h | h
      · subst h; rw [hpa] at hp; cases hp
      · exact ih h
    · rw [if_neg hpa]
      exact hc

/-- Membership of a non-whitespace character survives `stripChars`. -/
theorem mem_stripChars {c : Char} {l : List Char}
    (hc : c ∈ l) (hp : isPyWhitespace c = false) : c ∈ stripChars l := by
  unfold stripChars
  exact List.mem_reverse.mpr
    (mem_dropWhile_of_not (List.mem_reverse.mpr (mem_dropWhile_of_not hc hp)) hp)

/-- A colon survives Python `strip`. -/
theorem hasColon_pyStrip {s : String} (h : hasColon s = true) :
    hasColon (pyStrip s) = true := by
  unfold hasColon at h ⊢
  exact decide_eq_true
    (mem_stripChars (of_decide_eq_true h) (by decide))

/-- A colon survives the whole clean-up block of `generate_query`. -/
theorem hasColon_cleanQuery {s : String} (h : hasColon s = true) :
    hasColon (cleanQuery s) = true := by
  unfold cleanQuery
  apply hasColon_pyStrip
  have h1 : hasColon (pyStrip s) = true := hasColon_pyStrip h
  set q1 : String := pyStrip s with hq1
  by_cases hs : pyStartsWith q1 fenceOpen = true
  · -- dropping the 6-character fence prefix cannot remove the colon
    have hmem : ':' ∈ q1.data := of_decide_eq_true h1
    have htake : q1.data.take 6 = fenceOpen.data := by
      have := of_decide_eq_true hs
      simpa using this
    have hsplit : ':' ∈ q1.data.take 6 ++ q1.data.drop 6 := by
      rw [List.take_append_drop]; exact hmem
    have hdrop : ':' ∈ q1.data.drop 6 := by
      rcases List.mem_append.mp hsplit with hin | hin
      · rw [htake] at hin
        exact absurd hin (by decide)
      · exact hin
    have h2 : hasColon (pyDrop q1 6) = true := decide_eq_true hdrop
    rw [if_pos hs]
    set q2 : String := pyDrop q1 6 with hq2
    by_cases he : pyEndsWith q2 fenceClose = true
    · rw [if_pos he]
      have hmem2 : ':' ∈ q2.data := of_decide_eq_true h2
      have hdropend : q2.data.drop (q2.data.length - 3) = fenceClose.data :=
        (of_decide_eq_true he).1
      have hsplit2 : ':' ∈ q2.data.take (q2.data.length - 3)
          ++ q2.data.drop (q2.data.length - 3) := by
        rw [List.take_append_drop]; exact hmem2
      have : ':' ∈ q2.data.take (q2.data.length - 3) := by
        rcases List.mem_append.mp hsplit2 with hin | hin
        · exact hin
        · rw [hdropend] at hin
          exact absurd hin (by decide)
      exact decide_eq_true this
    · rw [if_neg he]
      exact h2
  · rw [if_neg hs]
    set q2 : String := q1 with hq2
    by_cases he : pyEndsWith q2 fenceClose = true
    · rw [if_pos he]
      have hmem2 : ':' ∈ q2.data := of_decide_eq_true h1
      have hdropend : q2.data.drop (q2.data.length - 3) = fenceClose.data :=
        (of_decide_eq_true he).1
      have hsplit2 : ':' ∈ q2.data.take (q2.data.length - 3)
          ++ q2.data.drop (q2.data.length - 3) := by
        rw [List.take_append_drop]; exact hmem2
      have : ':' ∈ q2.data.take (q2.data.length - 3) := by
        rcases List.mem_append.mp hsplit2 with hin | hin
        · exact hin
        · rw [hdropend] at hin
          exact absurd hin (by decide)
      exact decide_eq_true this
    · rw [if_neg he]
      exact h1

/-! ## Semantic memory store (`MemoryService`, memory_service.py) -/

/-- The serialized-metadata string of a stored record, classified by how
`json.loads` behaves on it: `parseable e` is a string that deserializes to
the key-value mapping `e` (the only kind `store_conversation` ever writes),
`unparseable` is a corrupt string on which `json.loads` raises, and
`emptyStr` is the empty string, which Python treats as falsy and maps to a
`None` metadata without attempting to parse. -/
inductive MetaRaw where
  | parseable (entries : List (String × String))
  | unparseable (raw : String)
  | emptyStr
deriving DecidableEq

/-- One record of the ChromaDB collection, as written by
`MemoryService.store_conversation` (all records carry chroma-metadata
`type = "conversation"`, so the query's where-filter is the identity). -/
structure StoredRecord where
  id : String
  question : String
  response : String
  meta : MetaRaw
  timestamp : String
deriving DecidableEq

/-- The memory dict returned to callers by `get_relevant_memories`. -/
structure MemoryRecordOut where
  id : String
  question : String
  response : String
  metadata : Option (List (String × String))
  timestamp : String
deriving DecidableEq

/-- State of `MemoryService`: the collection plus the cached
`memory_count` statistic maintained by `_update_memory_stats`. -/
structure MemState where
  records : List StoredRecord
  memory_count : Nat
deriving DecidableEq

/-- Environment of the memory store, modelled from the spec (the ChromaDB
client is an external collaborator): `simOrder` is the similarity ranking
the vector index produces for a query text, `queryRaises` makes the
similarity query itself raise, and `storeRaises` makes `collection.add`
raise (an embedding/index failure). -/
structure MemEnv where
  simOrder : String → List StoredRecord → List StoredRecord
  queryRaises : Bool
  storeRaises : Bool

/-- Number of neighbors `get_relevant_memories` requests from the index:
`min(n_results, self.memory_count)` (memory_service.py line 89). -/
def requestedNeighbors (st : MemState) (n_results : Nat) : Nat :=
  min n_results st.memory_count

/-- Per-record processing inside `get_relevant_memories` (lines 94-104):
`json.loads` of the metadata string; a record whose metadata fails to parse
is skipped (the exception is caught and logged per record); an empty
metadata string yields a `None` metadata. -/
def processRecord (r : StoredRecord) : Option MemoryRecordOut :=
  match r.meta with
  | .parseable e => some ⟨r.id, r.question, r.response, some e, r.timestamp⟩
  | .emptyStr => some ⟨r.id, r.question, r.response, none, r.timestamp⟩
  | .unparseable _ => none

/-- `MemoryService.get_relevant_memories` (lines 84-110): query the index
for at most `min(n_results, memory_count)` similar records, deserialize
each record's metadata (skipping corrupt ones), and return the list; any
failure of the underlying query is caught and yields the empty list. -/
def get_relevant_memories (menv : MemEnv) (st : MemState) (question : String)
    (n_results : Nat) : List MemoryRecordOut :=
  if menv.queryRaises then []
  else
    let ranked := menv.simOrder question st.records
    (ranked.take (requestedNeighbors st n_results)).filterMap processRecord

/-- `MemoryService.store_conversation` (lines 53-82): serialize the
metadata, add the record with id `conv_{time}_{memory_count}`, refresh the
stats. A failure of `collection.add` (embedding/index failure) is caught,
logged, and RE-RAISED (`raise` on line 82), modelled by `Except.error`. -/
def store_conversation (menv : MemEnv) (now : Nat) (st : MemState)
    (question response : String) (entries : List (String × String)) :
    Except String (String × MemState) :=
  if menv.storeRaises then .error "Error storing conversation"
  else
    let cid := "conv_" ++ toString now ++ "_" ++ toString st.memory_count
    let r : StoredRecord :=
      { id := cid, question := question, response := response,
        meta := .parseable entries, timestamp := toString now }
    let records := st.records ++ [r]
    .ok (cid, { records := records, memory_count := records.length })

/-! ## Query engine client and model client -/

/-- A reply of the query engine client, modelled from the spec:
`execute(sql) -> {columns, rows} | {error: text}`; errors are returned as
data, never raised. -/
inductive EngineReply where
  | ok (columns : List String) (rows : List (List String))
  | err (msg : String)
deriving DecidableEq

/-- Python `"error" in result` on an engine reply. -/
def resultHasError : EngineReply → Bool
  | .err _ => true
  | .ok _ _ => false

/-- Python `result['error']` (only consulted on error replies);
`result.get("error", "Query is valid")` is `errMsgOf` with the default. -/
def errMsgOf : EngineReply → String
  | .err e => e
  | .ok _ _ => ""

/-- Environment of the generation/analysis pipeline: the model client's
availability probe, the model client as a stub indexed by call number, the
query engine client, the memory-store environment, and the wall clock. -/
structure Env where
  ollamaAvailable : Bool
  modelReply : Nat → String
  engine : String → EngineReply
  memEnv : MemEnv
  now : Nat

/-- `AIService.check_ollama_availability` (ai_service.py lines 29-36):
probe the model endpoint, `False` on any failure. -/
def check_ollama_availability (env : Env) : Bool :=
  env.ollamaAvailable

/-- The trivial probe query of `check_trino_availability`. -/
def probeSql : String := "SELECT 1"

/-- `AIService.check_trino_availability` (lines 339-347): execute
`SELECT 1` and report whether the reply carries no error. -/
def check_trino_availability (env : Env) : Bool :=
  !(resultHasError (env.engine probeSql))

/-! ## Query generation state machine (`AIService.generate_query`) -/

/-- Result of a pipeline call: a normally returned string, or an uncaught
exception propagating to the caller. -/
inductive CallResult where
  | ok (value : String)
  | raised (msg : String)
deriving DecidableEq

/-- Observable outcome of one `generate_query` call: the returned value or
uncaught exception, the number of model generation calls made, the SQL
texts sent to the query engine in order (the availability probe included),
and the memory-store state afterwards. -/
structure GenOutcome where
  result : CallResult
  modelCalls : Nat
  engineCalls : List String
  stored : MemState
deriving DecidableEq

/-- Test-execution wrapper (line 431): the candidate nested as a
common-table-expression capped at one row. -/
def wrapTest (q : String) : String :=
  "WITH test_query AS (" ++ q ++ ") SELECT * FROM test_query LIMIT 1"

/-- Metadata dict stored for a successful generation (lines 480-485). -/
def sqlGenMetadata (schema_context validation_status validation_message :
    String) : List (String × String) :=
  [("type", "sql_generation"), ("schema_context", schema_context),
   ("validation_status", validation_status),
   ("validation_message", validation_message)]

/-- Terminal placeholder when the model client is unavailable (line 352). -/
def msgOllamaDown : String := "SELECT 'Ollama service is not available' as message"

/-- Terminal placeholder when the engine probe fails (line 356). -/
def msgTrinoDown : String :=
  "SELECT 'Trino service is not available. Please make sure Trino is running.' as error"

/-- Terminal result after the corrective retry still contains the
forbidden character (line 426). -/
def msgUnsupportedChars : String :=
  "SELECT 'Invalid query: Query contains unsupported characters' as error"

/-- Lines 476-488 of `generate_query`: store the conversation with
validation metadata computed from the last test result, then return the
query; the store call is NOT wrapped in a try block, so a store failure
propagates out of `generate_query`. -/
def finishGeneration (env : Env) (st : MemState)
    (question schema_context query : String) (r : EngineReply) (calls : Nat)
    (elog : List String) : GenOutcome :=
  let vs := if resultHasError r then "invalid" else "valid"
  let vm := if resultHasError r then errMsgOf r else "Query is valid"
  match store_conversation env.memEnv env.now st question query
      (sqlGenMetadata schema_context vs vm) with
  | .error e =>
    { result := .raised e, modelCalls := calls, engineCalls := elog,
      stored := st }
  | .ok (_, st') =>
    { result := .ok query, modelCalls := calls, engineCalls := elog,
      stored := st' }

/-- Lines 428-474 of `generate_query`: test-execute the candidate wrapped
as a CTE with `LIMIT 1`; on an error reply, make one corrective model call,
strip it, test-execute it; if that also errors, return the terminal
`Invalid query generated` result without storing; otherwise fall through to
the store step. `calls` counts the model calls already made. (The engine
client returns errors as data, so the `except` arms around `execute_query`
are unreachable and not modelled.) -/
def validateAndFinish (env : Env) (st : MemState)
    (question schema_context query : String) (calls : Nat)
    (elog : List String) : GenOutcome :=
  let t1 := wrapTest query
  let r1 := env.engine t1
  if resultHasError r1 then
    let query2 := pyStrip (env.modelReply calls)
    let t2 := wrapTest query2
    let r2 := env.engine t2
    if resultHasError r2 then
      { result := .ok ("SELECT 'Invalid query generated: " ++ errMsgOf r2
          ++ "' as error"),
        modelCalls := calls + 1, engineCalls := elog ++ [t1, t2],
        stored := st }
    else
      finishGeneration env st question schema_context query2 r2 (calls + 1)
        (elog ++ [t1, t2])
  else
    finishGeneration env st question schema_context query r1 calls
      (elog ++ [t1])

/-- `AIService.generate_query` (ai_service.py lines 349-488). Control flow:
fail fast if the model client probe fails (no engine or model call), then
if the engine probe fails; recall memories (they only enter the prompt
text); one model call, cleaned of code fences; if the cleaned query
contains a colon, one corrective model call (stripped only); if that still
contains a colon, return the terminal unsupported-characters result with no
test execution and no store; otherwise test-execute with one bounded
retry and store the conversation on success. -/
def generate_query (env : Env) (st : MemState)
    (question schema_context : String) : GenOutcome :=
  if !check_ollama_availability env then
    { result := .ok msgOllamaDown, modelCalls := 0, engineCalls := [],
      stored := st }
  else if !check_trino_availability env then
    { result := .ok msgTrinoDown, modelCalls := 0, engineCalls := [probeSql],
      stored := st }
  else
    let _memories := get_relevant_memories env.memEnv st question 3
    let query := cleanQuery (env.modelReply 0)
    if hasColon query then
      let query2 := pyStrip (env.modelReply 1)
      if hasColon query2 then
        { result := .ok msgUnsupportedChars, modelCalls := 2,
          engineCalls := [probeSql], stored := st }
      else
        validateAndFinish env st question schema_context query2 2 [probeSql]
    else
      validateAndFinish env st question schema_context query 1 [probeSql]

/-! ## Result analyzer (`AIService.analyze_results`, lines 490-523) -/

/-- Observable outcome of one `analyze_results` call. -/
structure AnalysisOutcome where
  result : CallResult
  modelCalls : Nat
  stored : MemState
deriving DecidableEq

/-- Unavailable-message string returned by `analyze_results` (line 493). -/
def msgOllamaDownAnalysis : String :=
  "Ollama service is not available. Please make sure Ollama is running and try again."

/-- Metadata dict stored for an analysis (lines 516-520); the query
results are carried as their serialized text. -/
def resultAnalysisMetadata (schema_context results : String) :
    List (String × String) :=
  [("type", "result_analysis"), ("schema_context", schema_context),
   ("results", results)]

/-- `AIService.analyze_results` (lines 490-523): return the descriptive
unavailable message if the model client probe fails; otherwise recall
memories (prompt-only), make one model call for the analysis, and store
the conversation — again with no try block around the store, so a store
failure propagates. -/
def analyze_results (env : Env) (st : MemState)
    (question schema_context results : String) : AnalysisOutcome :=
  if !check_ollama_availability env then
    { result := .ok msgOllamaDownAnalysis, modelCalls := 0, stored := st }
  else
    let _memories := get_relevant_memories env.memEnv st question 3
    let analysis := env.modelReply 0
    match store_conversation env.memEnv env.now st question analysis
        (resultAnalysisMetadata schema_context results) with
    | .error e => { result := .raised e, modelCalls := 1, stored := st }
    | .ok (_, st') => { result := .ok analysis, modelCalls := 1, stored := st' }

/-! ## Schema catalog cache (`SchemaService`, schema_service.py) -/

/-- One column of a table: name, type, and the description computed on
line 75 (`col[2] if col[2] else f"Column {col[0]} in table {table}"`). -/
structure ColumnInfo where
  name : String
  ctype : String
  description : String
deriving DecidableEq

/-- One table entry of the snapshot: the column list and the statistics
dict from `_get_table_statistics` (`some n` is `{"row_count": n}`, `none`
is the empty dict returned when the count query failed). -/
structure TableInfo where
  columns : List ColumnInfo
  rowCount : Option Nat
deriving DecidableEq

/-- The `schema_info` nested dict: catalog name, then schema name, then
table name, as insertion-ordered association lists (Python dict order). -/
abbrev SchemaInfo : Type :=
  List (String × List (String × List (String × TableInfo)))

/-- Python dict assignment on an association list: overwrite in place if
the key exists, append otherwise. -/
def dictSet (l : List (String × α)) (k : String) (f : Option α → α) :
    List (String × α) :=
  match l with
  | [] => [(k, f none)]
  | (k', v) :: rest =>
    if k' = k then (k, f (some v)) :: rest else (k', v) :: dictSet rest k f

/-- Lines 66-78: ensure the catalog and schema dicts exist, then assign
the table entry. -/
def insertTable (info : SchemaInfo) (c s t : String) (ti : TableInfo) :
    SchemaInfo :=
  dictSet info c (fun sc =>
    dictSet (sc.getD []) s (fun tb =>
      dictSet (tb.getD []) t (fun _ => ti)))

/-- The introspection interface of the query engine as seen by
`_fetch_schema`, one entry per cursor statement; `none` means the
statement raised. Modelled from the spec for the engine side
(`TrinoService` is not among the sources), with the statement shapes taken
from schema_service.py. -/
structure CatalogEnv where
  showCatalogs : Option (List String)
  showSchemas : String → Option (List String)
  showTables : String → String → Option (List String)
  describeTable : String → String → String →
    Option (List (String × String × Option String))
  countRows : String → String → String → Option Nat

/-- `SchemaService._get_table_statistics` (lines 92-109): row count via a
count query; any failure is caught and yields the empty stats dict. -/
def get_table_statistics (cenv : CatalogEnv) (c s t : String) : Option Nat :=
  cenv.countRows c s t

/-- Line 75's default description for a column with a falsy comment. -/
def columnDescription (colName comment : String) (table : String) : String :=
  if comment = "" then "Column " ++ colName ++ " in table " ++ table
  else comment

/-- Build the `ColumnInfo` list from a `DESCRIBE` reply (lines 60-76). -/
def columnsOf (cols : List (String × String × Option String)) (t : String) :
    List ColumnInfo :=
  cols.map (fun col =>
    { name := col.1, ctype := col.2.1,
      description := columnDescription col.1 (col.2.2.getD "") t })

/-- The per-table loop of `_fetch_schema` (lines 57-78): describe each
table and insert it into `schema_info`. A `DESCRIBE` failure raises into
the per-schema `except` (line 79), which abandons the REMAINING tables of
this schema but keeps everything already inserted. -/
def fetchTables (cenv : CatalogEnv) (info : SchemaInfo) (c s : String) :
    List String → SchemaInfo
  | [] => info
  | t :: rest =>
    match cenv.describeTable c s t with
    | none => info
    | some cols =>
      let ti : TableInfo :=
        { columns := columnsOf cols t,
          rowCount := get_table_statistics cenv c s t }
      fetchTables cenv (insertTable info c s t ti) c s rest

/-- The per-schema loop of `_fetch_schema` (lines 42-82): skip the
system-reserved schemas; a `SHOW TABLES` failure is caught per schema
(skip and continue). -/
def fetchSchemas (cenv : CatalogEnv) (info : SchemaInfo) (c : String) :
    List String → SchemaInfo
  | [] => info
  | s :: rest =>
    if s = "information_schema" ∨ s = "sys" then
      fetchSchemas cenv info c rest
    else
      match cenv.showTables c s with
      | none => fetchSchemas cenv info c rest
      | some tables =>
        fetchSchemas cenv (fetchTables cenv info c s tables) c rest

/-- The per-catalog loop of `_fetch_schema` (lines 36-85): a `SHOW
SCHEMAS` failure raises into the OUTER `except` (line 87), which aborts
the whole enumeration and falls through to `return schema_info`, i.e. the
partial dict built so far. -/
def fetchCatalogs (cenv : CatalogEnv) (info : SchemaInfo) :
    List String → SchemaInfo
  | [] => info
  | c :: rest =>
    match cenv.showSchemas c with
    | none => info
    | some schemas =>
      fetchCatalogs cenv (fetchSchemas cenv info c schemas) rest

/-- `SchemaService._fetch_schema` (lines 24-90): enumerate everything into
a fresh dict; ANY uncaught failure (unreachable engine, `SHOW CATALOGS` or
`SHOW SCHEMAS` raising) is caught by the outer `except`, which logs and
returns whatever partial `schema_info` was built — possibly empty. -/
def fetch_schema (cenv : CatalogEnv) : SchemaInfo :=
  match cenv.showCatalogs with
  | none => []
  | some catalogs => fetchCatalogs cenv [] catalogs

/-- State of `SchemaService`: the cached snapshot and the last-refresh
timestamp (seconds, as `time.time()`). -/
structure SchemaServiceState where
  schema_cache : SchemaInfo
  schema_cache_timestamp : Nat
deriving DecidableEq

/-- Observable outcome of one `get_database_schema` call: the returned
snapshot, the service state afterwards, and how many refresh call
sequences (`_fetch_schema` invocations) ran against the engine. -/
structure SchemaFetchOutcome where
  snapshot : SchemaInfo
  state : SchemaServiceState
  refreshes : Nat
deriving DecidableEq

/-- `SchemaService.get_database_schema` (lines 12-22): refresh when
`force_refresh` is set, the cache is empty (falsy), or the cache is older
than the TTL; the refresh unconditionally replaces `schema_cache` with
whatever `_fetch_schema` returned and stamps the current time. -/
def get_database_schema (cenv : CatalogEnv) (st : SchemaServiceState)
    (current_time ttl : Nat) (force_refresh : Bool) : SchemaFetchOutcome :=
  if force_refresh || st.schema_cache.isEmpty
      || decide (current_time - st.schema_cache_timestamp > ttl) then
    let info := fetch_schema cenv
    { snapshot := info,
      state := { schema_cache := info, schema_cache_timestamp := current_time },
      refreshes := 1 }
  else
    { snapshot := st.schema_cache, state := st, refreshes := 0 }

/-! ## Shared helper lemmas and concrete test fixtures -/

/-- The clean-up block is the identity on a string with no surrounding
whitespace and no enclosing fence markers (shared helper). -/
theorem cleanQuery_clean_noop (s : String) (h1 : pyStrip s = s)
    (h2 : pyStartsWith s fenceOpen = false)
    (h3 : pyEndsWith s fenceClose = false) : cleanQuery s = s := by
  unfold cleanQuery
  simp [h1, h2, h3]

/-- An engine stub whose replies always succeed. -/
def okEngine : String → EngineReply := fun _ => .ok (["total"]) ([["42"]])

/-- A memory environment in which both the index query and the store
succeed. -/
def benignMemEnv : MemEnv :=
  { simOrder := fun _ l => l, queryRaises := false, storeRaises := false }

/-- A memory environment in which `collection.add` raises (embedding or
index failure). -/
def failStoreMemEnv : MemEnv :=
  { simOrder := fun _ l => l, queryRaises := false, storeRaises := true }

/-- The empty memory store. -/
def mem0 : MemState := { records := [], memory_count := 0 }

/-- Scenario A model output: a clean SQL string. -/
def scenarioASql : String := "SELECT SUM(amount) AS total FROM orders"

/-- Scenario B first model output: SQL containing the forbidden colon. -/
def colonSql : String := "SELECT amount:total FROM orders"

/-- Environment of Scenario A: everything available, the model always
replies with the clean query, the engine accepts everything. -/
def scenarioAEnv : Env :=
  { ollamaAvailable := true, modelReply := fun _ => scenarioASql,
    engine := okEngine, memEnv := benignMemEnv, now := 100 }

/-- A model stub that always returns colon-bearing SQL. -/
def colonStubEnv : Env :=
  { ollamaAvailable := true, modelReply := fun _ => colonSql,
    engine := okEngine, memEnv := benignMemEnv, now := 100 }

/-- Environment in which the model client reports itself unavailable. -/
def downEnv : Env :=
  { ollamaAvailable := false, modelReply := fun _ => scenarioASql,
    engine := okEngine, memEnv := benignMemEnv, now := 100 }

/-- Environment in which everything works except the memory store's add. -/
def storeFailEnv : Env :=
  { ollamaAvailable := true, modelReply := fun _ => scenarioASql,
    engine := okEngine, memEnv := failStoreMemEnv, now := 100 }

/-- A non-empty pre-refresh snapshot. -/
def demoSnapshot : SchemaInfo :=
  [("legacy", [("sales", [("orders",
    { columns := [{ name := "id", ctype := "integer",
                    description := "Column id in table orders" }],
      rowCount := some 5 })])])]

/-- A catalog environment that aborts partway: the first catalog
enumerates fully, `SHOW SCHEMAS` on the second raises (so the outer
`except` of `_fetch_schema` fires after partial enumeration). -/
def partialEnv : CatalogEnv :=
  { showCatalogs := some (["good_catalog", "broken_catalog"]),
    showSchemas := fun c => if c = "good_catalog" then some (["sales"]) else none,
    showTables := fun _ _ => some (["orders"]),
    describeTable := fun _ _ _ => some ([("id", "integer", none)]),
    countRows := fun _ _ _ => some 10 }

/-- The partially populated snapshot `partialEnv` produces. -/
def partialSnapshot : SchemaInfo :=
  [("good_catalog", [("sales", [("orders",
    { columns := [{ name := "id", ctype := "integer",
                    description := "Column id in table orders" }],
      rowCount := some 10 })])])]

/-! ## Claim C1 — refresh atomicity of the schema cache -/

/-- Claim C1 counterexample: a refresh that aborts partway through
enumeration (the second catalog's `SHOW SCHEMAS` raises) does NOT leave the
pre-refresh snapshot in place — `get_database_schema` replaces the cache
with the partially populated snapshot, and a subsequent call returns that
partial snapshot, not the pre-refresh one. -/
theorem schema_refresh_not_atomic :
    (get_database_schema partialEnv ⟨demoSnapshot, 0⟩ 4000 3600 false).snapshot
      = partialSnapshot
    ∧ (get_database_schema partialEnv
        (get_database_schema partialEnv ⟨demoSnapshot, 0⟩ 4000 3600 false).state
        4010 3600 false).snapshot = partialSnapshot
    ∧ partialSnapshot ≠ demoSnapshot :=
  ⟨by decide, by decide, by decide⟩

/-- Claim C1 amended: whenever a refresh triggers, the cached snapshot is
unconditionally replaced by whatever `_fetch_schema` returned — on a
failed or partway-aborted enumeration that is the partially populated or
empty snapshot, not the pre-refresh one — and the timestamp is updated;
only per-schema and per-table enumeration failures are tolerated inside a
refresh. -/
theorem get_database_schema_refresh_replaces_wholesale (cenv : CatalogEnv)
    (st : SchemaServiceState) (now ttl : Nat) (force : Bool)
    (h : force = true ∨ st.schema_cache = []
      ∨ now - st.schema_cache_timestamp > ttl) :
    get_database_schema cenv st now ttl force =
      ⟨fetch_schema cenv, ⟨fetch_schema cenv, now⟩, 1⟩ := by
  have hcond : (force || st.schema_cache.isEmpty
      || decide (now - st.schema_cache_timestamp > ttl)) = true := by
    rcases h with h | h | h
    · simp [h]
    · simp [h]
    · simp [decide_eq_true h]
  unfold get_database_schema
  rw [if_pos hcond]

/-- Witness for the amended C1 theorem at a concrete input. -/
theorem get_database_schema_refresh_replaces_wholesale_witness :
    (true = true ∨ demoSnapshot = [] ∨ 50 - 0 > 3600)
    ∧ get_database_schema partialEnv ⟨demoSnapshot, 0⟩ 50 3600 true =
        ⟨fetch_schema partialEnv, ⟨fetch_schema partialEnv, 50⟩, 1⟩ :=
  ⟨Or.inl rfl,
   get_database_schema_refresh_replaces_wholesale partialEnv ⟨demoSnapshot, 0⟩
     50 3600 true (Or.inl rfl)⟩

/-! ## Claim C6 — schema cache TTL behavior -/

/-- Claim C6: with a non-empty snapshot `S` built at time `T` and TTL
`ttl`, `get_database_schema` with `force_refresh = false` before `T + ttl`
returns the cached snapshot with no engine interaction (the outcome is
independent of the catalog environment and reports zero refreshes); after
`T + ttl`, or with `force_refresh = true`, or with an empty cache, it runs
exactly one refresh call sequence. -/
theorem get_database_schema_ttl (cenv : CatalogEnv) (S : SchemaInfo)
    (T ttl now : Nat) (hne : S ≠ []) :
    (now < T + ttl →
      get_database_schema cenv ⟨S, T⟩ now ttl false = ⟨S, ⟨S, T⟩, 0⟩)
    ∧ (now > T + ttl →
      (get_database_schema cenv ⟨S, T⟩ now ttl false).refreshes = 1
      ∧ (get_database_schema cenv ⟨S, T⟩ now ttl false).snapshot
          = fetch_schema cenv)
    ∧ (get_database_schema cenv ⟨S, T⟩ now ttl true).refreshes = 1
    ∧ (∀ T' : Nat,
        (get_database_schema cenv ⟨[], T'⟩ now ttl false).refreshes = 1) := by
  have hS : S.isEmpty = false := by
    cases S with
    | nil => cases hne rfl
    | cons a t => rfl
  refine ⟨?_, ?_, ?_, ?_⟩
  · intro hlt
    have hd : decide (now - T > ttl) = false :=
      decide_eq_false (by omega)
    unfold get_database_schema
    rw [if_neg (by simp [hS, hd])]
  · intro hgt
    have hd : decide (now - T > ttl) = true :=
      decide_eq_true (by omega)
    unfold get_database_schema
    rw [if_pos (by simp [hd])]
    exact ⟨rfl, rfl⟩
  · unfold get_database_schema
    rw [if_pos (by simp)]
  · intro T'
    unfold get_database_schema
    rw [if_pos (by simp [List.isEmpty])]

/-- Witness for the C6 theorem at a concrete input. -/
theorem get_database_schema_ttl_witness :
    demoSnapshot ≠ ([] : SchemaInfo)
    ∧ (100 < 0 + 3600 →
        get_database_schema partialEnv ⟨demoSnapshot, 0⟩ 100 3600 false
          = ⟨demoSnapshot, ⟨demoSnapshot, 0⟩, 0⟩) :=
  ⟨by decide,
   (get_database_schema_ttl partialEnv demoSnapshot 0 3600 100 (by decide)).1⟩

/-! ## Claim C5 — memory recall bound -/

/-- Claim C5: for every `k` and every store (including the empty one, and
with the `memory_count` statistic in sync with the collection, as
`_update_memory_stats` maintains), `get_relevant_memories` returns at most
`min k total_stored` records and requests at most `total_stored` neighbors
from the index; the function is total, so a store smaller than `k` yields
fewer records rather than an error. -/
theorem get_relevant_memories_bound (menv : MemEnv) (st : MemState)
    (question : String) (k : Nat)
    (h : st.memory_count = st.records.length) :
    (get_relevant_memories menv st question k).length
        ≤ min k st.records.length
    ∧ requestedNeighbors st k ≤ st.records.length := by
  constructor
  · unfold get_relevant_memories
    by_cases hq : menv.queryRaises = true
    · rw [if_pos hq]
      exact Nat.zero_le _
    · rw [if_neg hq]
      show (List.filterMap processRecord
        ((menv.simOrder question st.records).take
          (requestedNeighbors st k))).length ≤ min k st.records.length
      have h1 := List.length_filterMap_le processRecord
        ((menv.simOrder question st.records).take (requestedNeighbors st k))
      have h2 : ((menv.simOrder question st.records).take
          (requestedNeighbors st k)).length ≤ requestedNeighbors st k := by
        rw [List.length_take]
        exact Nat.min_le_left _ _
      have h3 : requestedNeighbors st k ≤ min k st.records.length := by
        unfold requestedNeighbors
        rw [h]
      omega
  · unfold requestedNeighbors
    rw [h]
    exact Nat.min_le_right _ _

/-- Witness for the C5 theorem: the empty store queried with `k = 3`. -/
theorem get_relevant_memories_bound_witness :
    mem0.memory_count = mem0.records.length
    ∧ ((get_relevant_memories benignMemEnv mem0 ("anything") 3).length
          ≤ min 3 mem0.records.length
        ∧ requestedNeighbors mem0 3 ≤ mem0.records.length) :=
  ⟨rfl, get_relevant_memories_bound benignMemEnv mem0 ("anything") 3 rfl⟩

/-! ## Claim C4 — memory store failures and the enclosing request -/

/-- Claim C4 counterexample: with the model available, the engine healthy
and the model returning a clean analysis, an embedding/index failure
inside `store_conversation` is re-raised and propagates out of
`analyze_results` — the enclosing call fails instead of proceeding. -/
theorem analyze_results_store_failure_propagates :
    (analyze_results storeFailEnv mem0 ("q") ("s") ("r")).result
      = .raised "Error storing conversation"
    ∧ (generate_query storeFailEnv mem0 ("q") ("s")).result
      = .raised "Error storing conversation" := by
  decide

/-- Claim C4 amended: failures on the read side of the memory store (a
corrupt metadata string on a record, or the similarity query raising) are
caught and logged inside `get_relevant_memories` and never fail the
enclosing `generate_query` or `analyze_results` call — both succeed for
EVERY store content and every read-side environment, at worst with fewer
or no recalled memories; but an embedding/index failure while STORING the
record is re-raised by `store_conversation` and, being uncaught in the
callers, makes the enclosing call itself fail. -/
theorem memory_failures_amended (env : Env) (st : MemState)
    (question schema_context results : String)
    (havail : env.ollamaAvailable = true)
    (hprobe : resultHasError (env.engine probeSql) = false)
    (hclean : hasColon (cleanQuery (env.modelReply 0)) = false)
    (hexec : resultHasError
      (env.engine (wrapTest (cleanQuery (env.modelReply 0)))) = false) :
    (env.memEnv.storeRaises = false →
      (analyze_results env st question schema_context results).result
          = .ok (env.modelReply 0)
      ∧ (generate_query env st question schema_context).result
          = .ok (cleanQuery (env.modelReply 0)))
    ∧ (env.memEnv.storeRaises = true →
      (analyze_results env st question schema_context results).result
          = .raised "Error storing conversation"
      ∧ (generate_query env st question schema_context).result
          = .raised "Error storing conversation") := by
  constructor
  · intro hstore
    constructor
    · simp [analyze_results, check_ollama_availability, havail,
        store_conversation, hstore]
    · simp [generate_query, check_ollama_availability,
        check_trino_availability, havail, hprobe, hclean,
        validateAndFinish, hexec, finishGeneration, store_conversation,
        hstore]
  · intro hstore
    constructor
    · simp [analyze_results, check_ollama_availability, havail,
        store_conversation, hstore]
    · simp [generate_query, check_ollama_availability,
        check_trino_availability, havail, hprobe, hclean,
        validateAndFinish, hexec, finishGeneration, store_conversation,
        hstore]

/-- Witness for the amended C4 theorem at a concrete input (a store
containing one corrupt-metadata record, read side healthy). -/
theorem memory_failures_amended_witness :
    (scenarioAEnv.ollamaAvailable = true
      ∧ resultHasError (scenarioAEnv.engine probeSql) = false
      ∧ hasColon (cleanQuery (scenarioAEnv.modelReply 0)) = false
      ∧ resultHasError
          (scenarioAEnv.engine (wrapTest (cleanQuery (scenarioAEnv.modelReply 0))))
          = false)
    ∧ (scenarioAEnv.memEnv.storeRaises = false →
        (analyze_results scenarioAEnv
            ⟨[⟨"conv_0_0", "old q", "old a", .unparseable ("\\x7b"), "0"⟩], 1⟩
            ("q") ("s") ("r")).result = .ok (scenarioAEnv.modelReply 0)
        ∧ (generate_query scenarioAEnv
            ⟨[⟨"conv_0_0", "old q", "old a", .unparseable ("\\x7b"), "0"⟩], 1⟩
            ("q") ("s")).result
            = .ok (cleanQuery (scenarioAEnv.modelReply 0))) :=
  ⟨⟨by decide, by decide, by decide, by decide⟩,
   (memory_failures_amended scenarioAEnv
     ⟨[⟨"conv_0_0", "old q", "old a", .unparseable ("\\x7b"), "0"⟩], 1⟩
     ("q") ("s") ("r") (by decide) (by decide) (by decide) (by decide)).1⟩

/-! ## Claim C2 — retry bound for a forbidden-character stub -/

/-- Claim C2 counterexample: with a stub that always returns colon-bearing
SQL, `generate_query` makes exactly TWO model calls (not three) before
returning the exhaustion error — the forbidden-character path allows only
one corrective retry. -/
theorem generate_query_colon_stub_two_calls :
    (generate_query colonStubEnv mem0 ("total revenue") ("schema")).modelCalls = 2
    ∧ (generate_query colonStubEnv mem0 ("total revenue") ("schema")).modelCalls ≠ 3
    ∧ (generate_query colonStubEnv mem0 ("total revenue") ("schema")).result
        = .ok msgUnsupportedChars := by
  decide

/-- Claim C2 amended: for a model stub whose outputs always contain the
forbidden colon character, `generate_query` makes exactly TWO model calls
— one corrective retry after the first attempt — and then returns the
exhaustion error result; it never makes a third model call on this path. -/
theorem generate_query_colon_retry_bound (env : Env) (st : MemState)
    (question schema_context : String)
    (havail : env.ollamaAvailable = true)
    (hprobe : resultHasError (env.engine probeSql) = false)
    (h0 : hasColon (env.modelReply 0) = true)
    (h1 : hasColon (env.modelReply 1) = true) :
    (generate_query env st question schema_context).modelCalls = 2
    ∧ (generate_query env st question schema_context).result
        = .ok msgUnsupportedChars := by
  have hc0 := hasColon_cleanQuery h0
  have hc1 := hasColon_pyStrip h1
  constructor <;>
    simp [generate_query, check_ollama_availability,
      check_trino_availability, havail, hprobe, hc0, hc1]

/-- Witness for the amended C2 theorem at the always-colon stub. -/
theorem generate_query_colon_retry_bound_witness :
    (colonStubEnv.ollamaAvailable = true
      ∧ resultHasError (colonStubEnv.engine probeSql) = false
      ∧ hasColon (colonStubEnv.modelReply 0) = true
      ∧ hasColon (colonStubEnv.modelReply 1) = true)
    ∧ ((generate_query colonStubEnv mem0 ("q") ("s")).modelCalls = 2
      ∧ (generate_query colonStubEnv mem0 ("q") ("s")).result
          = .ok msgUnsupportedChars) :=
  ⟨⟨by decide, by decide, by decide, by decide⟩,
   generate_query_colon_retry_bound colonStubEnv mem0 ("q") ("s")
     (by decide) (by decide) (by decide) (by decide)⟩

/-! ## Claim C3 — fail-fast on model-client unavailability -/

/-- Claim C3: whenever the model client reports itself unavailable,
`generate_query` returns the descriptive placeholder with zero model
generation calls, zero query engine calls, and the memory store
untouched. -/
theorem generate_query_ollama_unavailable (env : Env) (st : MemState)
    (question schema_context : String)
    (h : env.ollamaAvailable = false) :
    generate_query env st question schema_context =
      { result := .ok msgOllamaDown, modelCalls := 0, engineCalls := [],
        stored := st } := by
  simp [generate_query, check_ollama_availability, h]

/-- Witness for the C3 theorem. -/
theorem generate_query_ollama_unavailable_witness :
    downEnv.ollamaAvailable = false
    ∧ generate_query downEnv mem0 ("total revenue") ("schema") =
        { result := .ok msgOllamaDown, modelCalls := 0, engineCalls := [],
          stored := mem0 } :=
  ⟨by decide,
   generate_query_ollama_unavailable downEnv mem0 ("total revenue")
     ("schema") (by decide)⟩

/-! ## Claim C10 — double forbidden-character failure is terminal -/

/-- Claim C10: when the first model output and the corrective-retry output
both contain the colon character, `generate_query` returns exactly the
string `SELECT 'Invalid query: Query contains unsupported characters' as
error`, sends nothing to the query engine beyond the `SELECT 1`
availability probe (neither candidate is test-executed), and writes no
record to the memory store. -/
theorem generate_query_double_colon_terminal (env : Env) (st : MemState)
    (question schema_context : String)
    (havail : env.ollamaAvailable = true)
    (hprobe : resultHasError (env.engine probeSql) = false)
    (h0 : hasColon (env.modelReply 0) = true)
    (h1 : hasColon (env.modelReply 1) = true) :
    generate_query env st question schema_context =
      { result := .ok msgUnsupportedChars, modelCalls := 2,
        engineCalls := [probeSql], stored := st } := by
  have hc0 := hasColon_cleanQuery h0
  have hc1 := hasColon_pyStrip h1
  simp [generate_query, check_ollama_availability, check_trino_availability,
    havail, hprobe, hc0, hc1]

/-- Witness for the C10 theorem at the always-colon stub. -/
theorem generate_query_double_colon_terminal_witness :
    (colonStubEnv.ollamaAvailable = true
      ∧ resultHasError (colonStubEnv.engine probeSql) = false
      ∧ hasColon (colonStubEnv.modelReply 0) = true
      ∧ hasColon (colonStubEnv.modelReply 1) = true)
    ∧ generate_query colonStubEnv mem0 ("total revenue") ("sch") =
        { result := .ok msgUnsupportedChars, modelCalls := 2,
          engineCalls := [probeSql], stored := mem0 } :=
  ⟨⟨by decide, by decide, by decide, by decide⟩,
   generate_query_double_colon_terminal colonStubEnv mem0 ("total revenue")
     ("sch") (by decide) (by decide) (by decide) (by decide)⟩

/-! ## Claim C7 — clean first attempt returned unchanged and stored -/

/-- Claim C7: when the first model output is a clean SQL string (no
surrounding whitespace, no enclosing code fences, no forbidden character)
and its capped test execution succeeds, `generate_query` returns that
exact string unchanged after one model call, and appends exactly one
memory record for the exchange whose metadata carries
`validation_status = "valid"`. -/
theorem generate_query_clean_first_attempt (env : Env) (st : MemState)
    (question schema_context : String)
    (havail : env.ollamaAvailable = true)
    (hprobe : resultHasError (env.engine probeSql) = false)
    (hstrip : pyStrip (env.modelReply 0) = env.modelReply 0)
    (hfs : pyStartsWith (env.modelReply 0) fenceOpen = false)
    (hfe : pyEndsWith (env.modelReply 0) fenceClose = false)
    (hcol : hasColon (env.modelReply 0) = false)
    (hexec : resultHasError (env.engine (wrapTest (env.modelReply 0))) = false)
    (hstore : env.memEnv.storeRaises = false) :
    generate_query env st question schema_context =
      { result := .ok (env.modelReply 0), modelCalls := 1,
        engineCalls := [probeSql, wrapTest (env.modelReply 0)],
        stored :=
          { records := st.records ++
              [{ id := "conv_" ++ toString env.now ++ "_"
                    ++ toString st.memory_count,
                 question := question, response := env.modelReply 0,
                 meta := .parseable (sqlGenMetadata schema_context ("valid")
                   ("Query is valid")),
                 timestamp := toString env.now }],
            memory_count := st.records.length + 1 } }
    ∧ List.lookup ("validation_status")
        (sqlGenMetadata schema_context ("valid") ("Query is valid"))
        = some ("valid") := by
  have hclean : cleanQuery (env.modelReply 0) = env.modelReply 0 :=
    cleanQuery_clean_noop _ hstrip hfs hfe
  have hcol' : hasColon (cleanQuery (env.modelReply 0)) = false := by
    rw [hclean]; exact hcol
  constructor
  · simp [generate_query, check_ollama_availability,
      check_trino_availability, havail, hprobe, hclean, hcol', hcol,
      validateAndFinish, hexec, finishGeneration, store_conversation,
      hstore]
  · rfl

/-- Witness for the C7 theorem: Scenario A. -/
theorem generate_query_clean_first_attempt_witness :
    (scenarioAEnv.ollamaAvailable = true
      ∧ pyStrip (scenarioAEnv.modelReply 0) = scenarioAEnv.modelReply 0
      ∧ hasColon (scenarioAEnv.modelReply 0) = false
      ∧ resultHasError
          (scenarioAEnv.engine (wrapTest (scenarioAEnv.modelReply 0))) = false)
    ∧ (generate_query scenarioAEnv mem0 ("total revenue")
          ("orders(id int, amount double)") =
        { result := .ok (scenarioAEnv.modelReply 0), modelCalls := 1,
          engineCalls := [probeSql, wrapTest (scenarioAEnv.modelReply 0)],
          stored :=
            { records := mem0.records ++
                [{ id := "conv_" ++ toString scenarioAEnv.now ++ "_"
                      ++ toString mem0.memory_count,
                   question := "total revenue",
                   response := scenarioAEnv.modelReply 0,
                   meta := .parseable (sqlGenMetadata
                     ("orders(id int, amount double)") ("valid")
                     ("Query is valid")),
                   timestamp := toString scenarioAEnv.now }],
              memory_count := mem0.records.length + 1 } }
        ∧ List.lookup ("validation_status")
            (sqlGenMetadata ("orders(id int, amount double)") ("valid")
              ("Query is valid")) = some ("valid")) :=
  ⟨⟨by decide, by decide, by decide, by decide⟩,
   generate_query_clean_first_attempt scenarioAEnv mem0 ("total revenue")
     ("orders(id int, amount double)") (by decide) (by decide) (by decide)
     (by decide) (by decide) (by decide) (by decide) (by decide)⟩

/-! ## Claim C8 — result analysis degrades to a message when the model is down -/

/-- Claim C8: whenever the model client is unavailable, `analyze_results`
returns the descriptive unavailable-message string as an ordinary return
value — no exception is raised, no model call is made, and the memory
store is untouched — so the caller can still show the raw query results. -/
theorem analyze_results_ollama_unavailable (env : Env) (st : MemState)
    (question schema_context results : String)
    (h : env.ollamaAvailable = false) :
    analyze_results env st question schema_context results =
      { result := .ok msgOllamaDownAnalysis, modelCalls := 0, stored := st } := by
  simp [analyze_results, check_ollama_availability, h]

/-- Witness for the C8 theorem. -/
theorem analyze_results_ollama_unavailable_witness :
    downEnv.ollamaAvailable = false
    ∧ analyze_results downEnv mem0 ("q") ("s") ("r") =
        { result := .ok msgOllamaDownAnalysis, modelCalls := 0,
          stored := mem0 } :=
  ⟨by decide,
   analyze_results_ollama_unavailable downEnv mem0 ("q") ("s") ("r")
     (by decide)⟩

/-! ## Claim C9 — sanitization is a no-op on already-clean SQL -/

/-- Claim C9: the post-generation sanitization step (strip, remove
enclosing code-fence markers, strip) returns an already-clean SQL string
— one with no surrounding whitespace and no enclosing fence markers —
unchanged. -/
theorem cleanQuery_noop_on_clean (s : String) (h1 : pyStrip s = s)
    (h2 : pyStartsWith s fenceOpen = false)
    (h3 : pyEndsWith s fenceClose = false) : cleanQuery s = s :=
  cleanQuery_clean_noop s h1 h2 h3

/-- Witness for the C9 theorem on a concrete clean SQL string. -/
theorem cleanQuery_noop_on_clean_witness :
    (pyStrip scenarioASql = scenarioASql
      ∧ pyStartsWith scenarioASql fenceOpen = false
      ∧ pyEndsWith scenarioASql fenceClose = false)
    ∧ cleanQuery scenarioASql = scenarioASql :=
  ⟨⟨by decide, by decide, by decide⟩,
   cleanQuery_noop_on_clean scenarioASql (by decide) (by decide) (by decide)⟩

end AIAnalytics

